import Mathlib

/-
  Verification of the Ouroboros - Ring of Eternity simulation core.

  Shallow embedding of the Python sources under src/: the world/screen
  graph (src/world/screen.py, src/world/world.py, src/world/camera.py),
  the player (src/entities/player.py), items and interactables
  (src/entities/item.py, src/entities/interactable.py), the enemy state
  machines (src/entities/enemy.py) and the crystal/combat orchestration
  in src/core/game.py.

  Conventions of the embedding:
  * pixel coordinates that stay integral in the source (player, camera)
    are Int; coordinates that become Python floats through normalised
    movement (Chaser, Sentinel, The Void, projectiles) are Rat, with
    IEEE rounding abstracted to exact rational/real arithmetic;
  * comparisons the source makes on a float sqrt are embedded by the
    equivalent exact comparison on the squared distance
    (sqrt d < c  iff  d < c*c for c >= 0), and int(sqrt d / k) is
    embedded with the exact identity floor(sqrt d / k) =
    floor(floor(sqrt d) / k) for integral k;
  * pygame.Surface / color / sprite fields are cosmetic and omitted;
  * Python None-or-object arguments become Option.
-/

namespace Ouroboros

set_option maxRecDepth 16384

/-! ## Constants (src/core/constants.py) -/

def NATIVE_WIDTH : Int := 160
def NATIVE_HEIGHT : Int := 192
def TILE_SIZE : Int := 16
def PLAYER_SIZE : Int := 16
def PLAYER_SPEED : Int := 2

/-! ## Screen graph (src/world/screen.py) -/

/-- ScreenID enumeration, one constructor per screen (screen.py lines 11-41). -/
inductive ScreenID where
  | tower_hub | final_chamber
  | gardens_1 | gardens_2 | gardens_3 | gardens_4
  | catacombs_1 | catacombs_2 | catacombs_3 | catacombs_4
  | ruins_1 | ruins_2 | ruins_3 | ruins_4
  | cliffs_1 | cliffs_2 | cliffs_3 | cliffs_4
deriving DecidableEq

/-- Cardinal directions (screen.py lines 44-49). -/
inductive Direction where
  | north | south | east | west
deriving DecidableEq

/-- A screen: the 12x10 boolean tile grid plus the four-entry connection
map (screen.py `Screen.__init__`).  The entity list is modelled
separately per claim (enemy lists, solid-rectangle lists), because the
Python list is heterogeneous. -/
structure Screen where
  tiles : List (List Bool)
  north : Option ScreenID := none
  south : Option ScreenID := none
  east : Option ScreenID := none
  west : Option ScreenID := none
deriving DecidableEq

/-- Number of tile rows, `len(self.tiles)`. -/
def Screen.rows (s : Screen) : Int := s.tiles.length

/-- Number of tile columns, `len(self.tiles[0]) if rows > 0 else 0`. -/
def Screen.cols (s : Screen) : Int :=
  match s.tiles with
  | [] => 0
  | r :: _ => r.length

/-- The tile grid built by `Screen._init_tiles`: a 12x10 all-passable
grid whose border cells are then set solid.  The Python code builds the
all-False grid and mutates the border rows/columns; the comprehension
below yields the identical grid. -/
def init_tiles : List (List Bool) :=
  (List.range 12).map fun row =>
    (List.range 10).map fun col =>
      row == 0 || row == 11 || col == 0 || col == 9

/-- Fresh screen as produced by the `Screen` constructor: default tile
grid, no connections. -/
def Screen.mk_default : Screen := { tiles := init_tiles }

/-- `Screen.connect`: record a neighbor in one direction. -/
def Screen.connect (s : Screen) (d : Direction) (sid : ScreenID) : Screen :=
  match d with
  | .north => { s with north := some sid }
  | .south => { s with south := some sid }
  | .east => { s with east := some sid }
  | .west => { s with west := some sid }

/-- `Screen.get_connection`. -/
def Screen.get_connection (s : Screen) (d : Direction) : Option ScreenID :=
  match d with
  | .north => s.north
  | .south => s.south
  | .east => s.east
  | .west => s.west

/-- `Screen.is_tile_solid(x, y)` (screen.py lines 117-137).  Pixel
coordinates are taken in Rat because callers pass float positions; the
Python `int(x // TILE_SIZE)` is the floor.  Out-of-grid indices are
solid; in-grid indices read the stored boolean (the `getD` defaults are
unreachable for the rectangular grids the game builds). -/
def Screen.is_tile_solid (s : Screen) (x y : ℚ) : Bool :=
  let tile_x : Int := ⌊x / 16⌋
  let tile_y : Int := ⌊y / 16⌋
  if 0 ≤ tile_y ∧ tile_y < s.rows ∧ 0 ≤ tile_x ∧ tile_x < s.cols then
    (s.tiles.getD tile_y.toNat []).getD tile_x.toNat false
  else
    true

/-- `Screen.set_tile_solid(tile_x, tile_y, solid)` (screen.py lines
139-152): in-bounds writes mutate one cell, out-of-bounds writes are
ignored. -/
def Screen.set_tile_solid (s : Screen) (tile_x tile_y : Int) (solid : Bool) : Screen :=
  if 0 ≤ tile_y ∧ tile_y < s.rows ∧ 0 ≤ tile_x ∧ tile_x < s.cols then
    { s with tiles := (s.tiles.set tile_y.toNat
        ((s.tiles.getD tile_y.toNat []).set tile_x.toNat solid)) }
  else
    s

/-- One 2x2 pillar of the Tower Hub layout (world.py `_add_room_layouts`,
the four `set_tile_solid` calls per corner coordinate). -/
def add_pillar (s : Screen) (px py : Int) : Screen :=
  ((((s.set_tile_solid px py true).set_tile_solid (px + 1) py true).set_tile_solid
      px (py + 1) true).set_tile_solid (px + 1) (py + 1) true)

/-- The Tower Hub screen as the game builds it: constructor defaults,
the four connections from `World._connect_screens`, and the four corner
pillars from `World._add_room_layouts`. -/
def tower_hub : Screen :=
  let s := (((Screen.mk_default.connect .north .gardens_1).connect
      .east .catacombs_1).connect .south .ruins_1).connect .west .cliffs_1
  [((1 : Int), (1 : Int)), (7, 1), (1, 9), (7, 9)].foldl
    (fun acc q => add_pillar acc q.1 q.2) s

/-! ## World (src/world/world.py) -/

/-- The world: all screens (the Python dict, total over ScreenID) and
the current screen id (world.py `World.__init__`). -/
structure World where
  screens : ScreenID → Screen
  current_screen_id : ScreenID

/-- `World.change_screen(direction)` (world.py lines 340-358): if the
current screen has a connection, swap `current_screen_id` and return
True, else return False.  Nothing else is touched. -/
def World.change_screen (w : World) (d : Direction) : Bool × World :=
  match (w.screens w.current_screen_id).get_connection d with
  | some next_id => (true, { w with current_screen_id := next_id })
  | none => (false, w)

/-- A concrete world fixture for witnesses: every id maps to the Tower
Hub screen, current screen is the hub. -/
def sample_world : World :=
  { screens := fun _ => tower_hub, current_screen_id := .tower_hub }

/-! ## Camera (src/world/camera.py) -/

/-- `Camera.check_screen_transition` (camera.py lines 24-48): fires only
once the player has fully exited the screen; tests in source order west,
east, north, south. -/
def check_screen_transition (player_x player_y player_width player_height : Int) :
    Option Direction :=
  if player_x + player_width < 0 then some .west
  else if player_x > NATIVE_WIDTH then some .east
  else if player_y + player_height < 0 then some .north
  else if player_y > NATIVE_HEIGHT then some .south
  else none

/-- `Camera.get_player_spawn_position` (camera.py lines 83-114), margin
8 from the entry edge, centered on the perpendicular axis. -/
def get_player_spawn_position (d : Direction) (player_width player_height : Int) :
    Int × Int :=
  match d with
  | .west => (NATIVE_WIDTH - player_width - 8, NATIVE_HEIGHT / 2 - player_height / 2)
  | .east => (8, NATIVE_HEIGHT / 2 - player_height / 2)
  | .north => (NATIVE_WIDTH / 2 - player_width / 2, NATIVE_HEIGHT - player_height - 8)
  | .south => (NATIVE_WIDTH / 2 - player_width / 2, 8)

/-! ## Rectangles (pygame.Rect semantics) -/

/-- An axis-aligned rectangle with integer origin and size. -/
structure Rect where
  x : Int
  y : Int
  w : Int
  h : Int
deriving DecidableEq

/-- `pygame.Rect.colliderect`: strict overlap on both axes. -/
def Rect.colliderect (a b : Rect) : Bool :=
  a.x < b.x + b.w && a.x + a.w > b.x && a.y < b.y + b.h && a.y + a.h > b.y

/-! ## Player (src/entities/player.py) -/

/-- Player movement state.  width/height are always PLAYER_SIZE = 16 in
the source; held_item is modelled at the game level. -/
structure Player where
  x : Int
  y : Int
  velocity_x : Int
  velocity_y : Int
deriving DecidableEq

/-- `Player.update(current_screen)` (player.py lines 63-108): optimistic
move, corner-sampled tile collision revert, solid-entity rectangle
collision revert (the rectangles of active solid entities are passed as
`solid_rects`), then the boundary clamp
`x = max(-width, min(x, NATIVE_WIDTH))`,
`y = max(-height, min(y, NATIVE_HEIGHT))`. -/
def Player.update (p : Player) (scr : Screen) (solid_rects : List Rect) : Player :=
  let old_x := p.x
  let old_y := p.y
  let x1 := p.x + p.velocity_x
  let y1 := p.y + p.velocity_y
  let corner_hit :=
    scr.is_tile_solid (x1 : ℚ) (y1 : ℚ) ||
    scr.is_tile_solid ((x1 + 15 : Int) : ℚ) (y1 : ℚ) ||
    scr.is_tile_solid (x1 : ℚ) ((y1 + 15 : Int) : ℚ) ||
    scr.is_tile_solid ((x1 + 15 : Int) : ℚ) ((y1 + 15 : Int) : ℚ)
  let x2 := if corner_hit then old_x else x1
  let y2 := if corner_hit then old_y else y1
  let entity_hit := solid_rects.any fun r =>
    Rect.colliderect { x := x2, y := y2, w := 16, h := 16 } r
  let x3 := if entity_hit then old_x else x2
  let y3 := if entity_hit then old_y else y2
  { p with
    x := max (-16) (min x3 NATIVE_WIDTH),
    y := max (-16) (min y3 NATIVE_HEIGHT) }

/-! ## Items (src/entities/item.py) -/

/-- ItemType enumeration (item.py lines 10-34). -/
inductive ItemType where
  | gold_key | silver_key
  | green_crystal | red_crystal | blue_crystal | yellow_crystal
  | acorn | watering_can | watering_can_full | bomb
  | chalice | chalice_filled | flute | sword | fish
  | ring_of_eternity
deriving DecidableEq

/-- An item; position, color, sprite and pickup radius are irrelevant to
the claims, only the mutable `item_type` is kept. -/
structure Item where
  item_type : ItemType
deriving DecidableEq

/-! ## Interactables (src/entities/interactable.py)

The source returns heterogeneous Python values from `interact`:
`None`, `False`, `True`, or one of the strings `"filled"`, `"planted"`,
`"grow_tree"`, `"bomb_placed"`, `"cleansed"`, `"sleeping"`.  They are
embedded one-to-one. -/

/-- Exact return values of the `interact` methods. -/
inductive InteractResult where
  | py_none | py_false | py_true
  | filled | planted | grow_tree | bomb_placed | cleansed | sleeping
deriving DecidableEq

/-- The outcome abstraction of the spec (spec glossary: FILLED, PLANTED,
GROW_TREE, BOMB_PLACED, CLEANSED, SLEEPING, SUCCESS, NONE).  The game
loop tests interact results with `if result:`, so the falsy Python
values `None` and `False` are both the NONE outcome and `True` is the
generic SUCCESS outcome. -/
inductive Outcome where
  | none | success | filled | planted | grow_tree | bomb_placed | cleansed | sleeping
deriving DecidableEq

/-- Map a raw interact return value to the outcome the spec talks
about. -/
def to_outcome : InteractResult → Outcome
  | .py_none => .none
  | .py_false => .none
  | .py_true => .success
  | .filled => .filled
  | .planted => .planted
  | .grow_tree => .grow_tree
  | .bomb_placed => .bomb_placed
  | .cleansed => .cleansed
  | .sleeping => .sleeping

/-- `Interactable.can_interact_with_item(item)` (interactable.py lines
100-114): False when already activated, False when no item is required,
otherwise the item must be present and of the required type. -/
def can_interact_with_item (is_activated : Bool) (requires_item : Option ItemType)
    (item : Option Item) : Bool :=
  if is_activated then false
  else
    match requires_item, item with
    | none, _ => false
    | some _, none => false
    | some req, some it => it.item_type == req

/-- Pedestal state (interactable.py `Pedestal`): the crystal type it
accepts, whether a crystal sits on it, and the activation flag. -/
structure Pedestal where
  requires_item : ItemType
  has_crystal : Bool := false
  is_activated : Bool := false
deriving DecidableEq

/-- `Pedestal.interact` (interactable.py lines 183-191): place the
matching crystal once, returning True; otherwise False. -/
def Pedestal.interact (p : Pedestal) (item : Option Item) : InteractResult × Pedestal :=
  if !p.has_crystal && can_interact_with_item p.is_activated (some p.requires_item) item then
    (.py_true, { p with has_crystal := true, is_activated := true })
  else
    (.py_false, p)

/-- Gate state (interactable.py `Gate`): key type, activation flag and
the solidity/visibility flags the unlock clears. -/
structure Gate where
  requires_item : ItemType
  is_activated : Bool := false
  solid : Bool := true
  active : Bool := true
deriving DecidableEq

/-- `Gate.interact` (interactable.py lines 223-230): unlock once with
the right key (True), otherwise False. -/
def Gate.interact (g : Gate) (item : Option Item) : InteractResult × Gate :=
  if !g.is_activated && can_interact_with_item g.is_activated (some g.requires_item) item then
    (.py_true, { g with is_activated := true, solid := false, active := false })
  else
    (.py_false, g)

/-- Fountain state (interactable.py `Fountain`); `requires_item` is
WATERING_CAN but `interact` never consults `is_activated`. -/
structure Fountain where
  is_activated : Bool := false
deriving DecidableEq

/-- `Fountain.interact` (interactable.py lines 242-252): any watering
can is transformed in place to the full variant and "filled" is
returned, with no activation check; anything else yields None. -/
def Fountain.interact (f : Fountain) (item : Option Item) :
    InteractResult × Fountain × Option Item :=
  match item with
  | some it =>
    if it.item_type == .watering_can then
      (.filled, f, some { it with item_type := .watering_can_full })
    else
      (.py_none, f, some it)
  | none => (.py_none, f, none)

/-- CrackedWall state (interactable.py `CrackedWall`). -/
structure CrackedWall where
  is_activated : Bool := false
  solid : Bool := true
  active : Bool := true
deriving DecidableEq

/-- `CrackedWall.interact` (interactable.py lines 295-301): a bomb on a
not-yet-activated wall returns "bomb_placed" (the wall mutation happens
in game.py), otherwise None. -/
def CrackedWall.interact (c : CrackedWall) (item : Option Item) :
    InteractResult × CrackedWall :=
  if !c.is_activated then
    match item with
    | some it => if it.item_type == .bomb then (.bomb_placed, c) else (.py_none, c)
    | none => (.py_none, c)
  else
    (.py_none, c)

/-- ToxicBasin state (interactable.py `ToxicBasin`). -/
structure ToxicBasin where
  is_activated : Bool := false
  deadly : Bool := true
  active : Bool := true
deriving DecidableEq

/-- `ToxicBasin.interact` (interactable.py lines 314-323): a filled
chalice cleanses the basin once, clearing `deadly` and `active`;
otherwise None. -/
def ToxicBasin.interact (b : ToxicBasin) (item : Option Item) :
    InteractResult × ToxicBasin :=
  if !b.is_activated then
    match item with
    | some it =>
      if it.item_type == .chalice_filled then
        (.cleansed, { b with is_activated := true, deadly := false, active := false })
      else
        (.py_none, b)
    | none => (.py_none, b)
  else
    (.py_none, b)

/-- BlessedSpring state (interactable.py `BlessedSpring`);
`requires_item` is CHALICE but `interact` never consults
`is_activated`. -/
structure BlessedSpring where
  is_activated : Bool := false
deriving DecidableEq

/-- `BlessedSpring.interact` (interactable.py lines 335-345): any
chalice is transformed in place to the filled variant and "filled" is
returned, with no activation check; anything else yields None. -/
def BlessedSpring.interact (sp : BlessedSpring) (item : Option Item) :
    InteractResult × BlessedSpring × Option Item :=
  match item with
  | some it =>
    if it.item_type == .chalice then
      (.filled, sp, some { it with item_type := .chalice_filled })
    else
      (.py_none, sp, some it)
  | none => (.py_none, sp, none)

/-- SleeplessStatue state (interactable.py `SleeplessStatue`). -/
structure SleeplessStatue where
  is_activated : Bool := false
deriving DecidableEq

/-- `SleeplessStatue.interact` (interactable.py lines 363-374): the
flute puts the statue to sleep once, returning "sleeping"; otherwise
None. -/
def SleeplessStatue.interact (st : SleeplessStatue) (item : Option Item) :
    InteractResult × SleeplessStatue :=
  if !st.is_activated then
    match item with
    | some it =>
      if it.item_type == .flute then (.sleeping, { st with is_activated := true })
      else (.py_none, st)
    | none => (.py_none, st)
  else
    (.py_none, st)

/-! ## Enemies (src/entities/enemy.py) -/

/-- The fields of an enemy that the combat pass in
`Game._handle_combat` reads: position and size (for the overlap test),
the `alive` flag, and the sword-immunity tag (absent attributes read as
false through Python `hasattr`, so a Crawler or Chaser carries
`immune_to_sword := false` here). -/
structure CombatEnemy where
  x : Int
  y : Int
  size : Int := 16
  alive : Bool := true
  immune_to_sword : Bool := false
deriving DecidableEq

/-- `Enemy.is_colliding_with_player` (enemy.py lines 61-77): pygame rect
overlap between the enemy square and the player box. -/
def CombatEnemy.is_colliding_with_player (e : CombatEnemy)
    (player_x player_y player_width player_height : Int) : Bool :=
  Rect.colliderect { x := e.x, y := e.y, w := e.size, h := e.size }
    { x := player_x, y := player_y, w := player_width, h := player_height }

/-- Whether the combat pass acts on this enemy: it must be alive and
overlap the player (game.py lines 667-672). -/
def combat_triggers (px py : Int) (e : CombatEnemy) : Bool :=
  e.alive && e.is_colliding_with_player px py 16 16

/-- The enemy loop of `Game._handle_combat` (game.py lines 666-691),
with CPython iteration semantics for `list.remove` during a `for` loop:
removing the current element advances the iterator past the element
that slid into its slot, so that element is kept but never examined.
A killed enemy (player has the sword, enemy not immune) is removed from
the list; an immune or sword-less contact kills the player, returning
immediately with the list as it stands.  Returns the remaining list and
whether the player died. -/
def handle_combat_loop (has_sword : Bool) (px py : Int) :
    List CombatEnemy → List CombatEnemy × Bool
  | [] => ([], false)
  | e :: rest =>
    if combat_triggers px py e then
      if has_sword && !e.immune_to_sword then
        match rest with
        | [] => ([], false)
        | f :: rest2 =>
          let r := handle_combat_loop has_sword px py rest2
          (f :: r.1, r.2)
      else
        (e :: rest, true)
    else
      let r := handle_combat_loop has_sword px py rest
      (e :: r.1, r.2)

/-- `Game._handle_combat` (game.py lines 655-703): the enemy loop, then
— only if the player survived it — the deadly-interactable pass over
the rectangles of entities whose `deadly` flag is set. -/
def handle_combat (has_sword : Bool) (px py : Int) (enemies : List CombatEnemy)
    (deadly_rects : List Rect) : List CombatEnemy × Bool :=
  let r := handle_combat_loop has_sword px py enemies
  if r.2 then r
  else
    (r.1, deadly_rects.any fun dr =>
      Rect.colliderect dr { x := px, y := py, w := 16, h := 16 })

/-- Sentinel state (enemy.py `Sentinel.__init__`): patrol waypoints,
current target index, permanent sword immunity.  Positions are Rat
because the patrol movement is float-normalised. -/
structure Sentinel where
  x : ℚ
  y : ℚ
  waypoints : List (ℚ × ℚ)
  current_waypoint : Nat := 0
  immune_to_sword : Bool := true
  alive : Bool := true
deriving DecidableEq

/-- `Sentinel.__init__(x, y, waypoints)` (enemy.py lines 313-324): the
factory passes `waypoints or []`, and the constructor falls back to
`[(x, y)]` when that list is empty; `immune_to_sword` is set True. -/
def Sentinel.init (x y : ℚ) (waypoints : List (ℚ × ℚ)) : Sentinel :=
  { x := x, y := y,
    waypoints := if waypoints.isEmpty then [(x, y)] else waypoints }

/-- The waypoint currently targeted,
`self.waypoints[self.current_waypoint]` (enemy.py line 335). -/
def Sentinel.target (s : Sentinel) : ℚ × ℚ :=
  s.waypoints.getD s.current_waypoint (0, 0)

/-- `Sentinel.update` (enemy.py lines 326-352).  The float expression
`dx/distance * speed` is embedded by passing the reciprocal
`inv_dist` of `distance = sqrt(dx*dx + dy*dy)` as an explicit
parameter (the only use of the float sqrt in this method); the snap
test `distance < 5` is embedded exactly as `dx*dx + dy*dy < 25`.
Within snap distance the target index advances to
`(current_waypoint + 1) % len(waypoints)` and the position is left
unchanged; otherwise the sentinel moves by
`(dx * speed * inv_dist, dy * speed * inv_dist)` with speed 2. -/
def Sentinel.update (s : Sentinel) (inv_dist : ℚ) : Sentinel :=
  if !s.alive then s
  else if s.waypoints.isEmpty then s
  else
    let t := s.target
    let dx := t.1 - s.x
    let dy := t.2 - s.y
    let dist_sq := dx * dx + dy * dy
    if dist_sq < 25 then
      { s with current_waypoint := (s.current_waypoint + 1) % s.waypoints.length }
    else
      { s with x := s.x + dx * 2 * inv_dist, y := s.y + dy * 2 * inv_dist }

/-- Floor of the real square root of a nonnegative rational, computed
exactly: for q = a/b in lowest terms, floor(sqrt(a/b)) =
floor(sqrt(a*b)/b) = floor(floor(sqrt(a*b))/b) = Nat.sqrt (a*b) / b. -/
def floor_sqrt (q : ℚ) : ℕ :=
  Nat.sqrt (q.num.toNat * q.den) / q.den

/-- Chaser state (enemy.py `Chaser.__init__`): float position, spawn
point, aggro flag and decay timer; speed is 1.5, aggro range 150. -/
structure Chaser where
  x : ℚ
  y : ℚ
  spawn_x : ℚ
  spawn_y : ℚ
  is_chasing : Bool := false
  return_timer : Int := 0
  alive : Bool := true
deriving DecidableEq

/-- `Chaser.has_line_of_sight` (enemy.py lines 212-244).  The range
test `distance > 150` is embedded exactly as `dist_sq > 150*150`; the
sample count `int(distance / 8)` as `floor_sqrt dist_sq / 8`
(floor(x/8) = floor(floor(x)/8)); the loop `for i in range(1, steps)`
samples the ray at the exact rational points t = i/steps and fails on
any solid tile. -/
def Chaser.has_line_of_sight (c : Chaser) (player_x player_y : ℚ) (scr : Screen) :
    Bool :=
  let dx := player_x - c.x
  let dy := player_y - c.y
  let dist_sq := dx * dx + dy * dy
  if dist_sq > 150 * 150 then false
  else
    let steps := floor_sqrt dist_sq / 8
    if steps == 0 then true
    else
      ((List.range steps).drop 1).all fun i =>
        let t : ℚ := (i : ℚ) / (steps : ℚ)
        !(scr.is_tile_solid (c.x + dx * t) (c.y + dy * t))

/-- `Chaser.update` (enemy.py lines 246-304).  First the aggro block:
line-of-sight sets `is_chasing` and resets `return_timer` to 180;
otherwise, while chasing, the timer decrements and aggro is cleared
when it reaches zero.  Then movement: while chasing, move toward the
player at speed 1.5 with corner-sampled revert-on-hit (the float
`dx/distance` is embedded via the explicit reciprocal `inv_dist` of the
distance to the player); while idle, ease back toward spawn at half
speed when farther than 2 (`distance > 2` embedded as `dist_sq > 4`,
reciprocal `inv_dist2`). -/
def Chaser.update (c : Chaser) (player_x player_y : ℚ) (scr : Screen)
    (inv_dist inv_dist2 : ℚ) : Chaser :=
  if !c.alive then c
  else
    let c1 :=
      if c.has_line_of_sight player_x player_y scr then
        { c with is_chasing := true, return_timer := 180 }
      else if c.is_chasing then
        let t := c.return_timer - 1
        if t ≤ 0 then { c with is_chasing := false, return_timer := t }
        else { c with return_timer := t }
      else c
    if c1.is_chasing then
      let dx := player_x - c1.x
      let dy := player_y - c1.y
      if dx * dx + dy * dy > 0 then
        let nx := c1.x + dx * (3 / 2) * inv_dist
        let ny := c1.y + dy * (3 / 2) * inv_dist
        let hit :=
          scr.is_tile_solid nx ny ||
          scr.is_tile_solid (nx + 15) ny ||
          scr.is_tile_solid nx (ny + 15) ||
          scr.is_tile_solid (nx + 15) (ny + 15)
        if hit then c1 else { c1 with x := nx, y := ny }
      else c1
    else
      let dx := c1.spawn_x - c1.x
      let dy := c1.spawn_y - c1.y
      if dx * dx + dy * dy > 4 then
        { c1 with x := c1.x + dx * (3 / 2) * (1 / 2) * inv_dist2,
                  y := c1.y + dy * (3 / 2) * (1 / 2) * inv_dist2 }
      else c1

/-- A projectile fired by The Void (enemy.py `Projectile.__init__`):
what determines its aim is its spawn point and the target position it
was created with (the float-normalised velocity is derived from
these). -/
structure VoidProjectile where
  x : ℚ
  y : ℚ
  target_x : ℚ
  target_y : ℚ
deriving DecidableEq

/-- The Void boss state (enemy.py `TheVoid.__init__`): a 3-hit counter,
the invulnerability flag and timer, position and velocity, and the
projectile list. -/
structure VoidState where
  hits_remaining : Int := 3
  invulnerable : Bool := false
  invulnerable_timer : Int := 0
  x : ℚ
  y : ℚ
  velocity_x : ℚ := 0
  velocity_y : ℚ := 0
  projectiles : List VoidProjectile := []
  alive : Bool := true
deriving DecidableEq

/-- The boss as spawned by `Game._setup_final_chamber`:
`create_enemy(EnemyType.VOID, 80, 96)` — 3 hits remaining, not
invulnerable (the random initial velocity is irrelevant to the
claims and set to 0 here). -/
def the_void_init : VoidState := { x := 80, y := 96 }

/-- The four fixed teleport corners of `TheVoid.take_hit` (enemy.py
lines 503-508), with size 24:
(40, 40), (NATIVE_WIDTH - 64, 40), (40, NATIVE_HEIGHT - 64),
(NATIVE_WIDTH - 64, NATIVE_HEIGHT - 64). -/
def void_corners : List (ℚ × ℚ) := [(40, 40), (96, 40), (40, 128), (96, 128)]

/-- `TheVoid.take_hit(player_x, player_y)` (enemy.py lines 481-527).
The two random draws are explicit parameters: `corner` indexes the
fixed corner list and `nvx`/`nvy` stand for the fresh random velocity.
An invulnerable boss ignores the hit.  Otherwise the hit counter
drops by one; at zero or below the boss reports defeated; otherwise it
teleports to the chosen corner, appends one projectile spawned at its
center (size 24, so +12) aimed at the player, takes the new velocity,
and becomes invulnerable for 30 ticks. -/
def VoidState.take_hit (s : VoidState) (player_x player_y : ℚ) (corner : Fin 4)
    (nvx nvy : ℚ) : Bool × VoidState :=
  if s.invulnerable then (false, s)
  else
    let s1 := { s with hits_remaining := s.hits_remaining - 1 }
    if s1.hits_remaining ≤ 0 then (true, s1)
    else
      let c := void_corners.getD corner.val (0, 0)
      (false,
        { s1 with
          x := c.1, y := c.2,
          projectiles := s1.projectiles ++
            [{ x := c.1 + 12, y := c.2 + 12, target_x := player_x, target_y := player_y }],
          velocity_x := nvx, velocity_y := nvy,
          invulnerable := true, invulnerable_timer := 30 })

/-! ## Game state machine and crystal tracker (src/core/state_machine.py,
src/core/game.py) -/

/-- GameState enumeration (state_machine.py lines 8-16). -/
inductive GameState where
  | init | explore | collection | activation | climax | win | game_over
deriving DecidableEq

/-- The StateMachine (state_machine.py lines 19-40): current state plus
the `previous_state` audit field. -/
structure StateMachine where
  current_state : GameState := .init
  previous_state : Option GameState := none
deriving DecidableEq

/-- `StateMachine.change_state`: records the old state and switches,
as a no-op when the new state equals the current one. -/
def StateMachine.change_state (sm : StateMachine) (new_state : GameState) :
    StateMachine :=
  if new_state != sm.current_state then
    { current_state := new_state, previous_state := some sm.current_state }
  else sm

/-- The slice of `Game` state that the crystal-placement flow touches
(game.py `__init__` lines 58-65, `_check_crystal_activation` lines
738-755): the four-entry `crystals_placed` map, the
`all_crystals_placed` flag, the silver gate it opens, and the state
machine. -/
structure CrystalGame where
  green_placed : Bool := false
  red_placed : Bool := false
  blue_placed : Bool := false
  yellow_placed : Bool := false
  all_crystals_placed : Bool := false
  silver_gate : Gate := { requires_item := .silver_key }
  sm : StateMachine := {}
deriving DecidableEq

/-- Fresh game as `Game.__init__` / `Game._restart_game` build it: all
four crystal flags False, `all_crystals_placed` False, the silver gate
locked, the state machine at INIT. -/
def crystal_game_init : CrystalGame := {}

/-- `all(self.crystals_placed.values())`. -/
def CrystalGame.all_flags (g : CrystalGame) : Bool :=
  g.green_placed && g.red_placed && g.blue_placed && g.yellow_placed

/-- `self.crystals_placed[crystal_type] = True` for a crystal type
(game.py line 434); non-crystal item types are not keys of the map. -/
def CrystalGame.set_flag (g : CrystalGame) (t : ItemType) : CrystalGame :=
  match t with
  | .green_crystal => { g with green_placed := true }
  | .red_crystal => { g with red_placed := true }
  | .blue_crystal => { g with blue_placed := true }
  | .yellow_crystal => { g with yellow_placed := true }
  | _ => g

/-- Whether an item type is a key of `crystals_placed`
(`crystal_type in self.crystals_placed`, game.py line 433). -/
def is_crystal (t : ItemType) : Bool :=
  match t with
  | .green_crystal | .red_crystal | .blue_crystal | .yellow_crystal => true
  | _ => false

/-- `Game._check_crystal_activation` (game.py lines 738-755): when all
four flags are set and `all_crystals_placed` is still False, set it,
open the silver gate unless a key already activated it, and transition
to ACTIVATION.  Otherwise do nothing. -/
def CrystalGame.check_crystal_activation (g : CrystalGame) : CrystalGame :=
  if g.all_flags && !g.all_crystals_placed then
    let g1 := { g with all_crystals_placed := true }
    let g2 :=
      if !g1.silver_gate.is_activated then
        { g1 with silver_gate :=
          { g1.silver_gate with is_activated := true, solid := false, active := false } }
      else g1
    { g2 with sm := g2.sm.change_state .activation }
  else g

/-- The crystal-placement branch of `Game.handle_space_interaction`
(game.py lines 431-442): if the placed item type is a key of the map,
set its flag and run `_check_crystal_activation`; otherwise the
tracker is untouched. -/
def CrystalGame.place_crystal (g : CrystalGame) (t : ItemType) : CrystalGame :=
  if is_crystal t then (g.set_flag t).check_crystal_activation else g

/-- A sequence of crystal placements starting from a game state. -/
def CrystalGame.run_placements (g : CrystalGame) (ops : List ItemType) : CrystalGame :=
  ops.foldl CrystalGame.place_crystal g

/-! ## Theorems -/

/-- Shared helper: the boundary clamp at the end of `Player.update`
forces the position into [-16, NATIVE_WIDTH] x [-16, NATIVE_HEIGHT]
whatever happened before it. -/
theorem player_update_in_bounds (p : Player) (scr : Screen) (solid_rects : List Rect) :
    -16 ≤ (p.update scr solid_rects).x ∧ (p.update scr solid_rects).x ≤ 160 ∧
    -16 ≤ (p.update scr solid_rects).y ∧ (p.update scr solid_rects).y ≤ 192 := by
  unfold Player.update NATIVE_WIDTH NATIVE_HEIGHT
  dsimp only
  refine ⟨?_, ?_, ?_, ?_⟩ <;> omega

/-- Claim C10: after every call to `Player.update`, whatever the input
velocity and whatever the collision outcome, the player position
satisfies -width ≤ x ≤ NATIVE_WIDTH and -height ≤ y ≤ NATIVE_HEIGHT
(width = height = PLAYER_SIZE = 16). -/
theorem C10_player_update_bounds (p : Player) (scr : Screen) (solid_rects : List Rect) :
    -PLAYER_SIZE ≤ (p.update scr solid_rects).x ∧
    (p.update scr solid_rects).x ≤ NATIVE_WIDTH ∧
    -PLAYER_SIZE ≤ (p.update scr solid_rects).y ∧
    (p.update scr solid_rects).y ≤ NATIVE_HEIGHT := by
  have h := player_update_in_bounds p scr solid_rects
  unfold PLAYER_SIZE NATIVE_WIDTH NATIVE_HEIGHT
  exact h

/-- Claim C1: the east-edge exit (and every other edge exit) can never
fire.  `Game.update` calls `check_screen_transition` on the position
just produced by `Player.update`, whose final clamp bounds x by
NATIVE_WIDTH and y by NATIVE_HEIGHT, while the detector requires the
strict inequalities x > NATIVE_WIDTH (east), x + 16 < 0 (west),
y + 16 < 0 (north) or y > NATIVE_HEIGHT (south).  So for every player
state, screen and solid-entity list the detector returns `none` — even
though the Tower Hub really is connected east to CATACOMBS_1, the
transition the claim describes never happens. -/
theorem C1_screen_transition_never_fires :
    (∀ (p : Player) (scr : Screen) (solid_rects : List Rect),
      check_screen_transition (p.update scr solid_rects).x
        (p.update scr solid_rects).y PLAYER_SIZE PLAYER_SIZE = none) ∧
    tower_hub.get_connection .east = some .catacombs_1 := by
  constructor
  · intro p scr solid_rects
    have h := player_update_in_bounds p scr solid_rects
    unfold check_screen_transition PLAYER_SIZE NATIVE_WIDTH NATIVE_HEIGHT
    rw [if_neg (by omega), if_neg (by omega), if_neg (by omega), if_neg (by omega)]
  · decide

/-- Claim C9: a pixel coordinate whose tile indices
(⌊x/16⌋, ⌊y/16⌋) fall outside the tile grid makes `is_tile_solid`
return true; in-grid indices return the stored boolean. -/
theorem C9_is_tile_solid_bounds (s : Screen) (x y : ℚ) :
    (¬(0 ≤ ⌊y / 16⌋ ∧ ⌊y / 16⌋ < s.rows ∧ 0 ≤ ⌊x / 16⌋ ∧ ⌊x / 16⌋ < s.cols) →
      s.is_tile_solid x y = true) ∧
    ((0 ≤ ⌊y / 16⌋ ∧ ⌊y / 16⌋ < s.rows ∧ 0 ≤ ⌊x / 16⌋ ∧ ⌊x / 16⌋ < s.cols) →
      s.is_tile_solid x y =
        (s.tiles.getD (⌊y / 16⌋).toNat []).getD (⌊x / 16⌋).toNat false) := by
  unfold Screen.is_tile_solid
  dsimp only
  constructor
  · intro h
    rw [if_neg h]
  · intro h
    rw [if_pos h]

/-- Witness for C9 at concrete inputs on the default screen: (-1, 0)
maps outside the grid and is solid; (17, 17) maps to cell (1, 1),
which the default layout stores as passable. -/
theorem C9_witness :
    Screen.mk_default.is_tile_solid (-1) 0 = true ∧
    Screen.mk_default.is_tile_solid 17 17 = false := by
  have hm1 : ⌊(-1 : ℚ) / 16⌋ = -1 := by norm_num
  have h17 : ⌊(17 : ℚ) / 16⌋ = 1 := by norm_num
  have h0 : ⌊(0 : ℚ) / 16⌋ = 0 := by norm_num
  constructor
  · refine (C9_is_tile_solid_bounds Screen.mk_default (-1) 0).1 ?_
    intro h
    rw [hm1] at h
    exact absurd h.2.2.1 (by norm_num)
  · have h2 := (C9_is_tile_solid_bounds Screen.mk_default 17 17).2
    rw [h17] at h2
    rw [h2 ⟨by norm_num, by decide, by norm_num, by decide⟩]
    decide

/-- Claim C8: `World.change_screen` toward an unconnected direction
returns False and leaves the world untouched; toward a connected
neighbor it returns True and swaps only `current_screen_id`.  In both
cases the screen table is untouched. -/
theorem C8_change_screen (w : World) (d : Direction) :
    ((w.screens w.current_screen_id).get_connection d = none →
      w.change_screen d = (false, w)) ∧
    (∀ n, (w.screens w.current_screen_id).get_connection d = some n →
      w.change_screen d = (true, { w with current_screen_id := n })) ∧
    (w.change_screen d).2.screens = w.screens := by
  refine ⟨?_, ?_, ?_⟩
  · intro h
    unfold World.change_screen
    rw [h]
  · intro n h
    unfold World.change_screen
    rw [h]
  · unfold World.change_screen
    rcases (w.screens w.current_screen_id).get_connection d <;> rfl

/-- Witness for C8: from the hub of sample_world, moving east succeeds
and lands on CATACOMBS_1. -/
theorem C8_witness :
    World.change_screen sample_world .east =
      (true, { sample_world with current_screen_id := .catacombs_1 }) :=
  (C8_change_screen sample_world .east).2.1 .catacombs_1 rfl

/-- Counterexample to claim C2: a Fountain whose `is_activated` flag is
true still transforms a watering can — `Fountain.interact` never
consults the flag.  The outcome is FILLED, not NONE, and the item is
mutated to the full can. -/
theorem C2_counterexample :
    to_outcome ((Fountain.interact { is_activated := true }
        (some { item_type := .watering_can })).1) ≠ Outcome.none ∧
    (Fountain.interact { is_activated := true }
        (some { item_type := .watering_can })).2.2 ≠
      some { item_type := ItemType.watering_can } := by
  decide

/-- Claim C2 as amended: the interactables whose `interact` guards on
activation — Pedestal, Gate, CrackedWall, ToxicBasin, SleeplessStatue —
yield the NONE outcome and change nothing once `is_activated` is true,
for every item including their own required type; but Fountain and
BlessedSpring ignore `is_activated` and transform a watering can /
chalice even when the flag is set. -/
theorem C2_activated_interact (item : Option Item) :
    (∀ p : Pedestal, p.is_activated = true →
      to_outcome (p.interact item).1 = .none ∧ (p.interact item).2 = p) ∧
    (∀ g : Gate, g.is_activated = true →
      to_outcome (g.interact item).1 = .none ∧ (g.interact item).2 = g) ∧
    (∀ c : CrackedWall, c.is_activated = true →
      to_outcome (c.interact item).1 = .none ∧ (c.interact item).2 = c) ∧
    (∀ b : ToxicBasin, b.is_activated = true →
      to_outcome (b.interact item).1 = .none ∧ (b.interact item).2 = b) ∧
    (∀ st : SleeplessStatue, st.is_activated = true →
      to_outcome (st.interact item).1 = .none ∧ (st.interact item).2 = st) ∧
    (∀ (f : Fountain) (it : Item), f.is_activated = true →
      it.item_type = .watering_can →
      f.interact (some it) = (.filled, f, some { it with item_type := .watering_can_full })) ∧
    (∀ (sp : BlessedSpring) (it : Item), sp.is_activated = true →
      it.item_type = .chalice →
      sp.interact (some it) = (.filled, sp, some { it with item_type := .chalice_filled })) := by
  refine ⟨?_, ?_, ?_, ?_, ?_, ?_, ?_⟩
  · intro p h
    simp [Pedestal.interact, can_interact_with_item, h, to_outcome]
  · intro g h
    simp [Gate.interact, can_interact_with_item, h, to_outcome]
  · intro c h
    simp [CrackedWall.interact, h, to_outcome]
  · intro b h
    simp [ToxicBasin.interact, h, to_outcome]
  · intro st h
    simp [SleeplessStatue.interact, h, to_outcome]
  · intro f it _ h2
    simp [Fountain.interact, h2]
  · intro sp it _ h2
    simp [BlessedSpring.interact, h2]

/-- Witness for C2: an activated green-crystal pedestal offered its own
crystal yields the NONE outcome and is unchanged. -/
theorem C2_witness :
    to_outcome ((Pedestal.interact
        { requires_item := .green_crystal, is_activated := true }
        (some { item_type := .green_crystal })).1) = .none ∧
    (Pedestal.interact { requires_item := .green_crystal, is_activated := true }
        (some { item_type := .green_crystal })).2 =
      { requires_item := .green_crystal, is_activated := true } :=
  (C2_activated_interact (some { item_type := .green_crystal })).1
    { requires_item := .green_crystal, is_activated := true } rfl

/-- Shared helper: the teleport target of a hit always lies in the
fixed four-corner list. -/
theorem void_corner_mem (i : Fin 4) : void_corners.getD i.val (0, 0) ∈ void_corners := by
  fin_cases i <;> simp [void_corners]

/-- Claim C3: The Void is defeated by exactly 3 non-invulnerable hits.
A hit while invulnerable returns not-defeated and changes nothing; a
non-invulnerable hit decrements `hits_remaining` by one; the hit that
brings the counter to zero returns defeated; every earlier
non-invulnerable hit returns not-defeated, teleports the boss to one of
the four fixed corners, appends one projectile spawned at the boss
center and aimed at the player position, and arms the 30-tick
invulnerability window.  The freshly spawned boss starts at 3 hits,
not invulnerable. -/
theorem C3_the_void_take_hit (s : VoidState) (px py : ℚ) (corner : Fin 4)
    (nvx nvy : ℚ) :
    (s.invulnerable = true → s.take_hit px py corner nvx nvy = (false, s)) ∧
    (s.invulnerable = false →
      (s.take_hit px py corner nvx nvy).2.hits_remaining = s.hits_remaining - 1 ∧
      (s.hits_remaining ≤ 1 →
        s.take_hit px py corner nvx nvy =
          (true, { s with hits_remaining := s.hits_remaining - 1 })) ∧
      (2 ≤ s.hits_remaining →
        (s.take_hit px py corner nvx nvy).1 = false ∧
        ((s.take_hit px py corner nvx nvy).2.x,
          (s.take_hit px py corner nvx nvy).2.y) ∈ void_corners ∧
        (s.take_hit px py corner nvx nvy).2.projectiles =
          s.projectiles ++
            [{ x := (s.take_hit px py corner nvx nvy).2.x + 12,
               y := (s.take_hit px py corner nvx nvy).2.y + 12,
               target_x := px, target_y := py }] ∧
        (s.take_hit px py corner nvx nvy).2.invulnerable = true ∧
        (s.take_hit px py corner nvx nvy).2.invulnerable_timer = 30)) ∧
    the_void_init.hits_remaining = 3 ∧ the_void_init.invulnerable = false := by
  refine ⟨?_, ?_, rfl, rfl⟩
  · intro h
    simp [VoidState.take_hit, h]
  · intro h
    simp only [VoidState.take_hit, h, Bool.false_eq_true, if_false]
    by_cases hle : s.hits_remaining - 1 ≤ 0
    · rw [if_pos hle]
      refine ⟨rfl, fun _ => rfl, fun h2 => absurd hle (by omega)⟩
    · rw [if_neg hle]
      refine ⟨rfl, fun h1 => absurd h1 (by omega), fun _ => ?_⟩
      refine ⟨rfl, ?_, rfl, rfl, rfl⟩
      exact void_corner_mem corner

/-- Witness for C3: the first sword hit on the fresh boss, with corner
draw 2 and zero velocity draw, is not yet a defeat, teleports into the
corner list, fires one projectile at the player at (10, 20), and arms
the 30-tick invulnerability window. -/
theorem C3_witness :
    (the_void_init.take_hit 10 20 2 0 0).1 = false ∧
    ((the_void_init.take_hit 10 20 2 0 0).2.x,
      (the_void_init.take_hit 10 20 2 0 0).2.y) ∈ void_corners ∧
    (the_void_init.take_hit 10 20 2 0 0).2.projectiles =
      the_void_init.projectiles ++
        [{ x := (the_void_init.take_hit 10 20 2 0 0).2.x + 12,
           y := (the_void_init.take_hit 10 20 2 0 0).2.y + 12,
           target_x := 10, target_y := 20 }] ∧
    (the_void_init.take_hit 10 20 2 0 0).2.invulnerable = true ∧
    (the_void_init.take_hit 10 20 2 0 0).2.invulnerable_timer = 30 :=
  ((C3_the_void_take_hit the_void_init 10 20 2 0 0).2.1 rfl).2.2 (by decide)

/-- Shared helper: setting a crystal flag never touches the silver
gate. -/
theorem set_flag_gate (g : CrystalGame) (t : ItemType) :
    (g.set_flag t).silver_gate = g.silver_gate := by
  cases t <;> rfl

/-- Shared helper: setting a crystal flag never touches
`all_crystals_placed`. -/
theorem set_flag_placed (g : CrystalGame) (t : ItemType) :
    (g.set_flag t).all_crystals_placed = g.all_crystals_placed := by
  cases t <;> rfl

/-- Shared helper: setting a crystal flag preserves a complete flag
set. -/
theorem set_flag_all_flags_mono (g : CrystalGame) (t : ItemType)
    (h : g.all_flags = true) : (g.set_flag t).all_flags = true := by
  cases t <;> simp_all [CrystalGame.set_flag, CrystalGame.all_flags]

/-- Shared helper: once every flag is set, setting one again is the
identity. -/
theorem set_flag_id (g : CrystalGame) (t : ItemType)
    (h : g.all_flags = true) : g.set_flag t = g := by
  obtain ⟨gr, rd, bl, yl, ap, sg, sm⟩ := g
  simp only [CrystalGame.all_flags, Bool.and_eq_true] at h
  cases t <;> simp [CrystalGame.set_flag, h.1.1.1, h.1.1.2, h.1.2, h.2]

/-- Shared helper: after `change_state` the current state is the
requested one. -/
theorem change_state_current (sm : StateMachine) (x : GameState) :
    (sm.change_state x).current_state = x := by
  unfold StateMachine.change_state
  split
  · rfl
  · next h =>
    simp only [bne_iff_ne, ne_eq, not_not] at h
    exact h.symm

/-- Shared helper: `check_crystal_activation` never changes the four
crystal flags. -/
theorem check_all_flags (g : CrystalGame) :
    (g.check_crystal_activation).all_flags = g.all_flags := by
  unfold CrystalGame.check_crystal_activation
  split
  · dsimp only
    split <;> rfl
  · rfl

/-- Shared helper: when its guard fails, `check_crystal_activation` is
the identity. -/
theorem check_nofire (g : CrystalGame)
    (h : (g.all_flags && !g.all_crystals_placed) = false) :
    g.check_crystal_activation = g := by
  unfold CrystalGame.check_crystal_activation
  rw [if_neg (by simp [h])]

/-- Shared helper: when its guard holds, `check_crystal_activation`
sets `all_crystals_placed`, moves the state machine to ACTIVATION, and
— if no key opened the gate before — opens the silver gate. -/
theorem check_placed_fire (g : CrystalGame)
    (h : (g.all_flags && !g.all_crystals_placed) = true) :
    (g.check_crystal_activation).all_crystals_placed = true ∧
    (g.check_crystal_activation).sm.current_state = .activation ∧
    (g.silver_gate.is_activated = false →
      (g.check_crystal_activation).silver_gate.is_activated = true ∧
      (g.check_crystal_activation).silver_gate.solid = false) := by
  unfold CrystalGame.check_crystal_activation
  rw [if_pos h]
  dsimp only
  refine ⟨?_, ?_, ?_⟩
  · split <;> rfl
  · exact change_state_current _ _
  · intro hg
    rw [if_pos (by simp [hg])]
    exact ⟨rfl, rfl⟩

/-- Shared helper: one placement preserves the crystal-tracker
invariant — `all_crystals_placed` equals the conjunction of the four
flags, and while it is false the silver gate has not been
crystal-activated. -/
theorem place_crystal_inv (g : CrystalGame) (t : ItemType)
    (h : g.all_crystals_placed = g.all_flags ∧
      (g.all_crystals_placed = false → g.silver_gate.is_activated = false)) :
    (g.place_crystal t).all_crystals_placed = (g.place_crystal t).all_flags ∧
    ((g.place_crystal t).all_crystals_placed = false →
      (g.place_crystal t).silver_gate.is_activated = false) := by
  unfold CrystalGame.place_crystal
  by_cases hc : is_crystal t
  · rw [if_pos hc]
    by_cases hfire :
        ((g.set_flag t).all_flags && !(g.set_flag t).all_crystals_placed) = true
    · have hfl : (g.set_flag t).all_flags = true := by
        have h2 := hfire
        simp only [Bool.and_eq_true] at h2
        exact h2.1
      obtain ⟨h1, _, _⟩ := check_placed_fire (g.set_flag t) hfire
      constructor
      · rw [h1, check_all_flags, hfl]
      · intro hfalse
        rw [h1] at hfalse
        cases hfalse
    · have hfire2 :
          ((g.set_flag t).all_flags && !(g.set_flag t).all_crystals_placed) = false := by
        revert hfire
        cases ((g.set_flag t).all_flags && !(g.set_flag t).all_crystals_placed) <;> simp
      rw [check_nofire _ hfire2]
      constructor
      · rcases hpl : (g.set_flag t).all_crystals_placed with _ | _
        · rw [hpl] at hfire2
          simp only [Bool.not_false, Bool.and_true] at hfire2
          rw [hfire2]
        · have hgp : g.all_crystals_placed = true := by
            rw [← set_flag_placed g t, hpl]
          have hf : g.all_flags = true := by rw [← h.1, hgp]
          rw [set_flag_all_flags_mono g t hf]
      · intro hfalse
        rw [set_flag_gate]
        exact h.2 (by rw [← set_flag_placed g t, hfalse])
  · rw [if_neg hc]
    exact h

/-- Shared helper: the crystal-tracker invariant holds after any
placement sequence from the fresh game. -/
theorem run_placements_inv (ops : List ItemType) :
    (crystal_game_init.run_placements ops).all_crystals_placed =
      (crystal_game_init.run_placements ops).all_flags ∧
    ((crystal_game_init.run_placements ops).all_crystals_placed = false →
      (crystal_game_init.run_placements ops).silver_gate.is_activated = false) := by
  have haux : ∀ (l : List ItemType) (g : CrystalGame),
      (g.all_crystals_placed = g.all_flags ∧
        (g.all_crystals_placed = false → g.silver_gate.is_activated = false)) →
      ((g.run_placements l).all_crystals_placed = (g.run_placements l).all_flags ∧
        ((g.run_placements l).all_crystals_placed = false →
          (g.run_placements l).silver_gate.is_activated = false)) := by
    intro l
    induction l with
    | nil => exact fun g h => h
    | cons t ts ih =>
      intro g h
      exact ih (g.place_crystal t) (place_crystal_inv g t h)
  exact haux ops crystal_game_init ⟨rfl, fun _ => rfl⟩

/-- Claim C4: the crystal-completion tracker is monotone.  Along any
placement sequence from the fresh game, `all_crystals_placed` equals
the conjunction of the four flags (so it is false while fewer than four
are set); once it is true every further placement is the identity (so
it never reverts and the activation effects cannot re-fire); and the
placement that completes the fourth flag sets it, opens the silver
gate, and moves the state machine to ACTIVATION. -/
theorem C4_crystal_tracker (ops : List ItemType) :
    ((crystal_game_init.run_placements ops).all_crystals_placed =
      (crystal_game_init.run_placements ops).all_flags) ∧
    ((crystal_game_init.run_placements ops).all_crystals_placed = true →
      ∀ t, (crystal_game_init.run_placements ops).place_crystal t =
        crystal_game_init.run_placements ops) ∧
    ((crystal_game_init.run_placements ops).all_crystals_placed = false →
      ∀ t, is_crystal t = true →
        ((crystal_game_init.run_placements ops).set_flag t).all_flags = true →
        (((crystal_game_init.run_placements ops).place_crystal t).all_crystals_placed
            = true ∧
          ((crystal_game_init.run_placements ops).place_crystal t).sm.current_state
            = .activation ∧
          ((crystal_game_init.run_placements ops).place_crystal t).silver_gate.is_activated
            = true ∧
          ((crystal_game_init.run_placements ops).place_crystal t).silver_gate.solid
            = false)) := by
  have hinv := run_placements_inv ops
  refine ⟨hinv.1, ?_, ?_⟩
  · intro h t
    have hflags : (crystal_game_init.run_placements ops).all_flags = true := by
      rw [← hinv.1, h]
    unfold CrystalGame.place_crystal
    by_cases hc : is_crystal t
    · rw [if_pos hc, set_flag_id _ _ hflags, check_nofire _ (by simp [h])]
    · rw [if_neg hc]
  · intro h t hc hf
    have hgate : (crystal_game_init.run_placements ops).silver_gate.is_activated
        = false := hinv.2 h
    have hfire :
        (((crystal_game_init.run_placements ops).set_flag t).all_flags &&
          !((crystal_game_init.run_placements ops).set_flag t).all_crystals_placed)
          = true := by
      rw [hf, set_flag_placed _ t, h]
      rfl
    have hgf :
        ((crystal_game_init.run_placements ops).set_flag t).silver_gate.is_activated
          = false := by
      rw [set_flag_gate]
      exact hgate
    obtain ⟨h1, h2, h3⟩ := check_placed_fire _ hfire
    unfold CrystalGame.place_crystal
    rw [if_pos hc]
    exact ⟨h1, h2, (h3 hgf).1, (h3 hgf).2⟩

/-- Witness for C4: after placing green, red and blue, placing the
yellow crystal completes the tracker, opens the silver gate and moves
the state machine to ACTIVATION. -/
theorem C4_witness :
    ((crystal_game_init.run_placements
        [ItemType.green_crystal, ItemType.red_crystal, ItemType.blue_crystal]).place_crystal
        ItemType.yellow_crystal).all_crystals_placed = true ∧
    ((crystal_game_init.run_placements
        [ItemType.green_crystal, ItemType.red_crystal, ItemType.blue_crystal]).place_crystal
        ItemType.yellow_crystal).sm.current_state = .activation ∧
    ((crystal_game_init.run_placements
        [ItemType.green_crystal, ItemType.red_crystal, ItemType.blue_crystal]).place_crystal
        ItemType.yellow_crystal).silver_gate.is_activated = true ∧
    ((crystal_game_init.run_placements
        [ItemType.green_crystal, ItemType.red_crystal, ItemType.blue_crystal]).place_crystal
        ItemType.yellow_crystal).silver_gate.solid = false :=
  (C4_crystal_tracker
      [ItemType.green_crystal, ItemType.red_crystal, ItemType.blue_crystal]).2.2
    (by decide) ItemType.yellow_crystal (by decide) (by decide)

/-- Shared helper: the combat loop passes over a list in which no enemy
is both alive and overlapping, leaving it unchanged and the player
alive. -/
theorem combat_loop_clean (hs : Bool) (px py : Int) (l : List CombatEnemy)
    (h : ∀ e ∈ l, combat_triggers px py e = false) :
    handle_combat_loop hs px py l = (l, false) := by
  induction l with
  | nil => rfl
  | cons e rest ih =>
    have he := h e (List.mem_cons_self e rest)
    rw [handle_combat_loop.eq_def]
    simp [he, ih (fun a ha => h a (List.mem_cons_of_mem e ha))]

/-- Shared helper: with the sword in hand, the combat loop over a list
whose only triggering enemy is `e` either erases `e` (not immune) or
stops with the player dead and the list intact (immune). -/
theorem combat_loop_split (px py : Int) (before after : List CombatEnemy)
    (e : CombatEnemy)
    (hb : ∀ a ∈ before, combat_triggers px py a = false)
    (ha : ∀ a ∈ after, combat_triggers px py a = false)
    (he : combat_triggers px py e = true) :
    handle_combat_loop true px py (before ++ e :: after) =
      if e.immune_to_sword then (before ++ e :: after, true)
      else (before ++ after, false) := by
  induction before with
  | nil =>
    cases himm : e.immune_to_sword with
    | true =>
      rw [List.nil_append, handle_combat_loop.eq_def]
      simp [he, himm]
    | false =>
      cases after with
      | nil =>
        rw [List.nil_append, handle_combat_loop.eq_def]
        simp [he, himm]
      | cons f rest2 =>
        have hclean := combat_loop_clean true px py rest2
          (fun a haa => ha a (List.mem_cons_of_mem f haa))
        rw [List.nil_append, handle_combat_loop.eq_def]
        simp [he, himm, hclean]
  | cons b bs ih =>
    have hbb := hb b (List.mem_cons_self b bs)
    have ih2 := ih (fun a haa => hb a (List.mem_cons_of_mem b haa))
    cases himm : e.immune_to_sword <;>
      (rw [List.cons_append, handle_combat_loop.eq_def]; simp [hbb, himm]; rw [ih2]; simp [himm])

/-- Claim C5: in the combat pass with the sword held, a living enemy
overlapping the player is removed from the entity list when it is not
sword-immune (player survives); a sword-immune enemy stays in the list
and the player dies instead.  A Sentinel is constructed sword-immune. -/
theorem C5_combat_sword_immunity :
    (∀ (before after : List CombatEnemy) (e : CombatEnemy) (px py : Int)
        (deadly_rects : List Rect),
      (∀ a ∈ before, combat_triggers px py a = false) →
      (∀ a ∈ after, combat_triggers px py a = false) →
      combat_triggers px py e = true →
      (∀ r ∈ deadly_rects,
        Rect.colliderect r { x := px, y := py, w := 16, h := 16 } = false) →
      (e.immune_to_sword = false →
        handle_combat true px py (before ++ e :: after) deadly_rects =
          (before ++ after, false)) ∧
      (e.immune_to_sword = true →
        handle_combat true px py (before ++ e :: after) deadly_rects =
          (before ++ e :: after, true))) ∧
    (∀ (x y : ℚ) (wps : List (ℚ × ℚ)), (Sentinel.init x y wps).immune_to_sword = true) := by
  refine ⟨?_, fun x y wps => rfl⟩
  intro before after e px py dr hb ha he hd
  have hloop := combat_loop_split px py before after e hb ha he
  have hdr : (dr.any fun r =>
      Rect.colliderect r { x := px, y := py, w := 16, h := 16 }) = false := by
    simp only [List.any_eq_false]
    intro r hr
    simp [hd r hr]
  constructor
  · intro himm
    unfold handle_combat
    rw [hloop]
    simp [himm, hdr]
  · intro himm
    unfold handle_combat
    rw [hloop]
    simp [himm]

/-- Witness for C5: at (10, 10) the player with the sword kills an
overlapping Crawler-like enemy (list becomes empty, player alive) but
dies to an overlapping sword-immune enemy, which stays in the list. -/
theorem C5_witness :
    handle_combat true 10 10 [{ x := 10, y := 10 }] [] = ([], false) ∧
    handle_combat true 10 10 [{ x := 10, y := 10, immune_to_sword := true }] [] =
      ([{ x := 10, y := 10, immune_to_sword := true }], true) := by
  constructor
  · have h := (C5_combat_sword_immunity.1 [] [] { x := 10, y := 10 } 10 10 []
      (by simp) (by simp) (by decide) (by simp)).1 rfl
    simpa using h
  · have h := (C5_combat_sword_immunity.1 [] []
      { x := 10, y := 10, immune_to_sword := true } 10 10 []
      (by simp) (by simp) (by decide) (by simp)).2 rfl
    simpa using h

/-- Claim C6: a Sentinel with a non-empty waypoint list either advances
its target index to (i+1) mod n when within snap distance (squared
distance < 25, i.e. distance < 5) of the current target — position
unchanged — or keeps the index and moves by the positive multiple
2·inv_dist of the vector toward the target (inv_dist embeds the
reciprocal of the distance, which is ≥ 5 in this branch).  The index
stays below n in either case, and at the last index the advance wraps
to 0, so the patrol cycle repeats indefinitely. -/
theorem C6_sentinel_patrol (s : Sentinel) (inv_dist : ℚ)
    (halive : s.alive = true) (hwp : s.waypoints ≠ [])
    (hidx : s.current_waypoint < s.waypoints.length) :
    ((s.target.1 - s.x) * (s.target.1 - s.x) +
        (s.target.2 - s.y) * (s.target.2 - s.y) < 25 →
      s.update inv_dist =
        { s with current_waypoint := (s.current_waypoint + 1) % s.waypoints.length } ∧
      (s.current_waypoint = s.waypoints.length - 1 →
        (s.update inv_dist).current_waypoint = 0)) ∧
    (¬((s.target.1 - s.x) * (s.target.1 - s.x) +
        (s.target.2 - s.y) * (s.target.2 - s.y) < 25) →
      (s.update inv_dist).current_waypoint = s.current_waypoint ∧
      (s.update inv_dist).x = s.x + (s.target.1 - s.x) * 2 * inv_dist ∧
      (s.update inv_dist).y = s.y + (s.target.2 - s.y) * 2 * inv_dist) ∧
    (s.update inv_dist).current_waypoint < s.waypoints.length := by
  have hne : s.waypoints.isEmpty = false := by
    cases hw : s.waypoints
    · exact absurd hw hwp
    · rfl
  have hpos : 0 < s.waypoints.length := List.length_pos.mpr hwp
  unfold Sentinel.update
  simp only [halive, Bool.not_true, Bool.false_eq_true, if_false, hne]
  refine ⟨?_, ?_, ?_⟩
  · intro hlt
    rw [if_pos hlt]
    refine ⟨rfl, fun hlast => ?_⟩
    show (s.current_waypoint + 1) % s.waypoints.length = 0
    rw [hlast, Nat.sub_add_cancel hpos, Nat.mod_self]
  · intro hlt
    rw [if_neg hlt]
    exact ⟨rfl, rfl, rfl⟩
  · by_cases hlt : (s.target.1 - s.x) * (s.target.1 - s.x) +
        (s.target.2 - s.y) * (s.target.2 - s.y) < 25
    · rw [if_pos hlt]
      exact Nat.mod_lt _ hpos
    · rw [if_neg hlt]
      exact hidx

/-- Witness for C6: a two-waypoint Sentinel standing on its first
waypoint advances the target index to 1 = (0 + 1) % 2. -/
theorem C6_witness :
    ((Sentinel.init 40 40 [((40 : ℚ), (40 : ℚ)), (120, 40)]).update 1).current_waypoint
      = 1 := by
  have h := (C6_sentinel_patrol
      (Sentinel.init 40 40 [((40 : ℚ), (40 : ℚ)), (120, 40)]) 1 rfl
      (by simp [Sentinel.init]) (by simp [Sentinel.init])).1
      (by norm_num [Sentinel.init, Sentinel.target])
  rw [h.1]
  norm_num [Sentinel.init]

/-- Claim C7: Chaser aggro dynamics.  On a tick with line-of-sight the
aggro flag is set and the decay timer reset to its full 180 ticks; on a
tick without line-of-sight while aggro holds, the timer decreases by
one and the flag is cleared exactly when the stored timer reaches zero
(or below); without aggro nothing changes. -/
theorem C7_chaser_aggro (c : Chaser) (px py : ℚ) (scr : Screen)
    (inv_dist inv_dist2 : ℚ) (halive : c.alive = true) :
    (c.has_line_of_sight px py scr = true →
      (c.update px py scr inv_dist inv_dist2).is_chasing = true ∧
      (c.update px py scr inv_dist inv_dist2).return_timer = 180) ∧
    (c.has_line_of_sight px py scr = false → c.is_chasing = true →
      (c.update px py scr inv_dist inv_dist2).return_timer = c.return_timer - 1 ∧
      ((c.update px py scr inv_dist inv_dist2).is_chasing = false ↔
        c.return_timer - 1 ≤ 0)) ∧
    (c.has_line_of_sight px py scr = false → c.is_chasing = false →
      (c.update px py scr inv_dist inv_dist2).is_chasing = false ∧
      (c.update px py scr inv_dist inv_dist2).return_timer = c.return_timer) := by
  unfold Chaser.update
  simp only [halive, Bool.not_true, Bool.false_eq_true, if_false]
  refine ⟨?_, ?_, ?_⟩
  · intro hlos
    simp [hlos, apply_ite Chaser.is_chasing, apply_ite Chaser.return_timer]
  · intro hlos hch
    by_cases htmr : c.return_timer - 1 ≤ 0
    · simp [hlos, hch, htmr, apply_ite Chaser.is_chasing, apply_ite Chaser.return_timer]
    · simp [hlos, hch, htmr, apply_ite Chaser.is_chasing, apply_ite Chaser.return_timer]
  · intro hlos hch
    simp [hlos, hch, apply_ite Chaser.is_chasing, apply_ite Chaser.return_timer]

/-- Witness for C7: a chaser sitting exactly on the player (distance 0,
line-of-sight trivially clear) acquires aggro and a full 180-tick
timer. -/
theorem C7_witness :
    (Chaser.update { x := 20, y := 20, spawn_x := 20, spawn_y := 20 } 20 20
        Screen.mk_default 1 1).is_chasing = true ∧
    (Chaser.update { x := 20, y := 20, spawn_x := 20, spawn_y := 20 } 20 20
        Screen.mk_default 1 1).return_timer = 180 := by
  have hlos : Chaser.has_line_of_sight
      { x := 20, y := 20, spawn_x := 20, spawn_y := 20 } 20 20 Screen.mk_default
      = true := by
    unfold Chaser.has_line_of_sight floor_sqrt
    norm_num
  exact (C7_chaser_aggro { x := 20, y := 20, spawn_x := 20, spawn_y := 20 } 20 20
    Screen.mk_default 1 1 rfl).1 hlos

end Ouroboros
